import Mathlib

/-!
Verification of the TO-DO-List bot's rate limiter (`rate_limiter.py`), recurrence
calculator and recurring-task scheduler (`Reservation.py`), and the rate-limiter
state persistence (`_save_state` / `_load_state` in `rate_limiter.py`).

Python dicts are modelled as insertion-ordered association lists with unique keys;
`deque`s of timestamps as lists (oldest first); `time.time()` instants as integers.
-/

/-! ## Association-list model of Python dicts -/

/-- `m[k]` lookup: first binding of `k`, if any. -/
def dget {α : Type} (m : List (String × α)) (k : String) : Option α :=
  match m with
  | [] => none
  | (k2, v) :: rest => if k2 = k then some v else dget rest k

/-- `m[k]` with a default (`defaultdict` read / `dict.get(k, d)`). -/
def dgetD {α : Type} (m : List (String × α)) (k : String) (d : α) : α :=
  (dget m k).getD d

/-- `m[k] = v`: replace the binding in place, or append a new one. -/
def dset {α : Type} (m : List (String × α)) (k : String) (v : α) : List (String × α) :=
  match m with
  | [] => [(k, v)]
  | (k2, v2) :: rest => if k2 = k then (k, v) :: rest else (k2, v2) :: dset rest k v

/-- `del m[k]`: remove the binding for `k`. -/
def ddel {α : Type} (m : List (String × α)) (k : String) : List (String × α) :=
  m.filter (fun p => p.1 ≠ k)

/-- The dict representation invariant: keys occur at most once. -/
def keysNodup {α : Type} (m : List (String × α)) : Prop :=
  (m.map Prod.fst).Nodup

/-! ## Rate limiter state (`RateLimiter.__init__`, rate_limiter.py lines 28-42) -/

/-- `performance_stats` (rate_limiter.py lines 38-42). -/
structure Stats where
  total_requests : Nat
  blocked_requests : Nat
  cleanup_runs : Nat
deriving DecidableEq

/-- The `RateLimiter` object's state: two per-user timestamp windows, the block
map, the three config values and the performance counters. -/
structure RateLimiter where
  user_commands : List (String × List Int)
  user_tasks_created : List (String × List Int)
  blocked_users : List (String × Int)
  commands_per_minute : Nat
  tasks_per_hour : Nat
  block_duration : Int
  performance_stats : Stats
deriving DecidableEq

/-- The freshly constructed limiter (rate_limiter.py lines 29-42). -/
def RateLimiter.init : RateLimiter :=
  { user_commands := []
    user_tasks_created := []
    blocked_users := []
    commands_per_minute := 30
    tasks_per_hour := 100
    block_duration := 300
    performance_stats := ⟨0, 0, 0⟩ }

/-- `while queue and queue[0] < cutoff: queue.popleft()` — trim the expired
prefix of a window (rate_limiter.py lines 61-62 and 72-73, cutoff `now - 60`
resp. `now - 3600`). -/
def evict (q : List Int) (cutoff : Int) : List Int :=
  match q with
  | [] => []
  | t :: rest => if t < cutoff then evict rest cutoff else t :: rest

/-- `self.performance_stats['total_requests'] += 1` (line 50). -/
def bumpTotal (s : RateLimiter) : RateLimiter :=
  { s with performance_stats :=
      { s.performance_stats with total_requests := s.performance_stats.total_requests + 1 } }

/-- `self.performance_stats['blocked_requests'] += 1` (lines 54, 66, 77). -/
def bumpBlocked (s : RateLimiter) : RateLimiter :=
  { s with performance_stats :=
      { s.performance_stats with blocked_requests := s.performance_stats.blocked_requests + 1 } }

/-- The window-checking half of `is_rate_limited` (rate_limiter.py lines 59-81),
reached once the block map has been handled.  Reading `self.user_commands[user_id]`
through the `defaultdict` creates the entry, and the eviction mutates the stored
deque in place, so both the deny and the allow branch store the evicted queue
back (without resp. with the new timestamp appended). -/
def windowStep (s : RateLimiter) (user_id command_type : String) (now : Int) :
    Bool × RateLimiter :=
  if command_type = "command" then
    let q := evict (dgetD s.user_commands user_id []) (now - 60)
    if s.commands_per_minute ≤ q.length then
      (true, bumpBlocked
        { s with
          user_commands := dset s.user_commands user_id q
          blocked_users := dset s.blocked_users user_id (now + s.block_duration) })
    else
      (false, { s with user_commands := dset s.user_commands user_id (q ++ [now]) })
  else if command_type = "task" then
    let q := evict (dgetD s.user_tasks_created user_id []) (now - 3600)
    if s.tasks_per_hour ≤ q.length then
      (true, bumpBlocked
        { s with
          user_tasks_created := dset s.user_tasks_created user_id q
          blocked_users := dset s.blocked_users user_id (now + s.block_duration) })
    else
      (false, { s with user_tasks_created := dset s.user_tasks_created user_id (q ++ [now]) })
  else
    (false, s)

/-- `del self.blocked_users[user_id]` (rate_limiter.py line 57). -/
def clearBlock (s : RateLimiter) (user_id : String) : RateLimiter :=
  { s with blocked_users := ddel s.blocked_users user_id }

/-- `RateLimiter.is_rate_limited(user_id, command_type)` (rate_limiter.py lines
47-81), with `time.time()` passed explicitly as `now`.  Returns the boolean
result together with the successor state. -/
def is_rate_limited (s : RateLimiter) (user_id command_type : String) (now : Int) :
    Bool × RateLimiter :=
  let s1 := bumpTotal s
  match dget s1.blocked_users user_id with
  | some t =>
    if now < t then (true, bumpBlocked s1)
    else windowStep (clearBlock s1 user_id) user_id command_type now
  | none => windowStep s1 user_id command_type now

/-- One pass of the per-user window cleanup inside `cleanup_old_entries`
(rate_limiter.py lines 94-100 and 102-108): evict each user's expired prefix
and drop the user's entry when the queue has become empty. -/
def cleanupWindows (m : List (String × List Int)) (cutoff : Int) :
    List (String × List Int) :=
  match m with
  | [] => []
  | (u, q) :: rest =>
    let q2 := evict q cutoff
    if q2 = [] then cleanupWindows rest cutoff
    else (u, q2) :: cleanupWindows rest cutoff

/-- The block-map sweep inside `cleanup_old_entries` (lines 110-112): drop every
block with `now >= blocked_until`. -/
def cleanupBlocks (m : List (String × Int)) (now : Int) : List (String × Int) :=
  m.filter (fun p => now < p.2)

/-- `RateLimiter.cleanup_old_entries` (rate_limiter.py lines 90-116). -/
def cleanup_old_entries (s : RateLimiter) (now : Int) : RateLimiter :=
  { s with
    user_commands := cleanupWindows s.user_commands (now - 60)
    user_tasks_created := cleanupWindows s.user_tasks_created (now - 3600)
    blocked_users := cleanupBlocks s.blocked_users now
    performance_stats :=
      { s.performance_stats with cleanup_runs := s.performance_stats.cleanup_runs + 1 } }

/-- The dictionary returned by `RateLimiter.get_stats` (rate_limiter.py lines
118-127). -/
structure StatsReport where
  total_requests : Nat
  blocked_requests : Nat
  cleanup_runs : Nat
  active_users : Nat
  blocked_users : Nat
  command_queues : Nat
  task_queues : Nat
deriving DecidableEq

/-- `RateLimiter.get_stats` (rate_limiter.py lines 118-127). -/
def get_stats (s : RateLimiter) : StatsReport :=
  { total_requests := s.performance_stats.total_requests
    blocked_requests := s.performance_stats.blocked_requests
    cleanup_runs := s.performance_stats.cleanup_runs
    active_users := s.user_commands.length + s.user_tasks_created.length
    blocked_users := s.blocked_users.length
    command_queues := (s.user_commands.map (fun p => p.2.length)).sum
    task_queues := (s.user_tasks_created.map (fun p => p.2.length)).sum }

/-- The number of distinct users appearing in either window map (what
"`active_users` counts distinct tracked users" would mean; `get_stats` does not
compute this). -/
def distinctTrackedUsers (s : RateLimiter) : Nat :=
  ((s.user_commands.map Prod.fst) ++ (s.user_tasks_created.map Prod.fst)).dedup.length

/-- A user is tracked when any of the three per-user maps has an entry for them. -/
def tracked (s : RateLimiter) (u : String) : Prop :=
  dget s.user_commands u ≠ none ∨ dget s.user_tasks_created u ≠ none ∨
    dget s.blocked_users u ≠ none

/-- An active block: a block-map entry still in the future. -/
def activeBlock (s : RateLimiter) (u : String) (now : Int) : Prop :=
  ∃ b, dget s.blocked_users u = some b ∧ now < b

/-- One `is_rate_limited` invocation: user, command type, arrival time. -/
structure Call where
  user_id : String
  command_type : String
  now : Int

/-- Run a sequence of `is_rate_limited` calls, threading the state. -/
def runTrace (s : RateLimiter) : List Call → RateLimiter
  | [] => s
  | call :: rest => runTrace (is_rate_limited s call.user_id call.command_type call.now).2 rest

/-- Every user's command window holds at most `commands_per_minute` timestamps
and every task window at most `tasks_per_hour`. -/
def Bounded (s : RateLimiter) : Prop :=
  (∀ u, (dgetD s.user_commands u []).length ≤ s.commands_per_minute) ∧
  (∀ u, (dgetD s.user_tasks_created u []).length ≤ s.tasks_per_hour)

/-! ## Wall-clock datetimes and `calculate_next_deadline` (Reservation.py)

A timezone-aware Python `datetime` is modelled by its wall-clock fields; the
deployment timezones are fixed-offset here, so `timedelta` arithmetic (which
Python performs on the wall clock) coincides with arithmetic on the linear
timeline, and `astimezone` is the identity on the modelled fields. -/

/-- Wall-clock instant (year/month/day hour:minute). -/
structure DateTime where
  year : Nat
  month : Nat
  day : Nat
  hour : Nat
  minute : Nat
deriving DecidableEq

/-- Gregorian leap-year test (`calendar.isleap` semantics, as used by Python's
`datetime` validity rules). -/
def isLeapYear (y : Nat) : Bool :=
  (y % 4 = 0 && y % 100 ≠ 0) || y % 400 = 0

/-- Number of days in the given month of the given year. -/
def daysInMonth (y m : Nat) : Nat :=
  if m = 2 then (if isLeapYear y then 29 else 28)
  else if m = 4 ∨ m = 6 ∨ m = 9 ∨ m = 11 then 30
  else 31

/-- The calendar successor day (carrying month and year). -/
def nextDay (d : DateTime) : DateTime :=
  if d.day < daysInMonth d.year d.month then { d with day := d.day + 1 }
  else if d.month < 12 then { d with month := d.month + 1, day := 1 }
  else { d with year := d.year + 1, month := 1, day := 1 }

/-- `d + timedelta(days=n)`. -/
def addDays (d : DateTime) : Nat → DateTime
  | 0 => d
  | n + 1 => addDays (nextDay d) n

/-- A datetime Python's constructor accepts: month 1-12 and a day that exists
in that month. -/
def ValidDate (d : DateTime) : Prop :=
  1 ≤ d.month ∧ d.month ≤ 12 ∧ 1 ≤ d.day ∧ d.day ≤ daysInMonth d.year d.month

/-- Leap years strictly before year `y` (year 0 counted as a leap year). -/
def leapCount (y : Nat) : Nat :=
  (y + 3) / 4 - (y + 99) / 100 + (y + 399) / 400

/-- Days in all years strictly before year `y`. -/
def daysBeforeYear (y : Nat) : Nat :=
  365 * y + leapCount y

/-- Days in the months of year `y` strictly before month `m`. -/
def daysBeforeMonth (y : Nat) : Nat → Nat
  | 0 => 0
  | 1 => 0
  | m + 1 => daysBeforeMonth y m + daysInMonth y m

/-- Day number of `d` on the linear timeline (days since 0000-01-01). -/
def toDayNumber (d : DateTime) : Nat :=
  daysBeforeYear d.year + daysBeforeMonth d.year d.month + (d.day - 1)

/-- Minute number of `d` on the linear timeline: the absolute instant `d`
denotes, in minutes. -/
def toMin (d : DateTime) : Nat :=
  (toDayNumber d * 24 + d.hour) * 60 + d.minute

/-- Chronological comparison of two instants (Python `datetime` `<=`). -/
def dtLe (a b : DateTime) : Bool :=
  toMin a ≤ toMin b

/-- ASCII lowercasing of one character (`str.lower()` restricted to ASCII,
which covers every recurrence-rule string the bot compares). -/
def pyLowerChar (ch : Char) : Char :=
  if 65 ≤ ch.toNat ∧ ch.toNat ≤ 90 then Char.ofNat (ch.toNat + 32) else ch

/-- `recurring.lower()`. -/
def pyLower (s : String) : String :=
  String.mk (s.data.map pyLowerChar)

/-- `calculate_next_deadline(last_deadline, recurring)` (Reservation.py lines
80-95, identically lines 769-787): daily and weekly add a `timedelta`; monthly
tries `replace` onto the following month and falls back to `+ timedelta(days=30)`
when the day does not exist there (`ValueError`); any other rule yields `None`. -/
def calculate_next_deadline (last_deadline : DateTime) (recurring : String) :
    Option DateTime :=
  if pyLower recurring = "daily" then
    some (addDays last_deadline 1)
  else if pyLower recurring = "weekly" then
    some (addDays last_deadline 7)
  else if pyLower recurring = "monthly" then
    let m0 := last_deadline.month + 1
    let year := if m0 > 12 then last_deadline.year + 1 else last_deadline.year
    let month := if m0 > 12 then 1 else m0
    if last_deadline.day ≤ daysInMonth year month then
      some { last_deadline with year := year, month := month }
    else
      some (addDays last_deadline 30)
  else
    none

/-! ## Task store and the recurring-task scheduler tick -/

/-- `tasks.status` values (`status TEXT DEFAULT 'Pending'`, Reservation.py
schema). -/
inductive Status where
  | Pending
  | Completed
  | Cancelled
deriving DecidableEq, BEq

/-- A row of the `tasks` table (the columns the scheduler touches). -/
structure TaskRow where
  task_id : Nat
  task : String
  deadline : DateTime
  priority : Int
  recurring : Option String
  owner_id : String
  status : Status
deriving DecidableEq

/-- The task store: the `tasks` and `task_assignments` tables plus the rowid
counter that `INSERT` advances. -/
structure TaskStore where
  tasks : List TaskRow
  task_assignments : List (Nat × String)
  next_task_id : Nat
deriving DecidableEq

/-- The body of the loop in `recurring_task_loop` for one completed recurring
source row (Reservation.py lines 2104-2126): compute the next deadline; when it
is due (`next_deadline <= now`), insert a new `Pending` row (the schema default
status) with the same title, priority, rule and owner, and copy the source's
assignments onto the new row. -/
def regenerateOne (now : DateTime) (st : TaskStore) (r : TaskRow) : TaskStore :=
  match r.recurring with
  | none => st
  | some rule =>
    match calculate_next_deadline r.deadline rule with
    | none => st
    | some next =>
      if dtLe next now then
        let new_id := st.next_task_id
        let assigned := (st.task_assignments.filter (fun p => p.1 == r.task_id)).map Prod.snd
        { st with
          tasks := st.tasks ++
            [{ task_id := new_id, task := r.task, deadline := next, priority := r.priority,
               recurring := some rule, owner_id := r.owner_id, status := Status.Pending }]
          task_assignments := st.task_assignments ++ assigned.map (fun u => (new_id, u))
          next_task_id := new_id + 1 }
      else st

/-- One tick of `recurring_task_loop` (Reservation.py lines 2095-2132): fetch
the completed recurring rows once, then regenerate each in order.  Timezone
conversion of the stored deadline is the identity here (fixed-offset model);
`now` stands for `datetime.now(tz)`. -/
def recurring_task_loop (store : TaskStore) (now : DateTime) : TaskStore :=
  let sources := store.tasks.filter
    (fun r => r.recurring.isSome && r.status == Status.Completed)
  sources.foldl (regenerateOne now) store

/-! ## State persistence (`_save_state` / `_load_state`, rate_limiter.py)

The snapshot file holds a JSON document; `_load_state` handles it dynamically
(`data.get(...)`, `.items()`, `deque(...)`), so the persistence layer is
modelled over JSON values, and the limiter state as `_load_state` sees it is a
record of Python-dict-shaped fields whose values may be arbitrary JSON values
(`PState`).  A state the running limiter actually produces embeds into it via
`toPState`. -/

/-- A JSON value (numbers suffice as integers here: every number the limiter
persists round-trips exactly through `json`). -/
inductive JVal where
  | jnum : Int → JVal
  | jstr : String → JVal
  | jarr : List JVal → JVal
  | jobj : List (String × JVal) → JVal

/-- The limiter state as the persistence code manipulates it: the same fields
as `RateLimiter`, but dynamically typed the way a (partially) loaded snapshot
can leave them. -/
structure PState where
  user_commands : List (String × List JVal)
  user_tasks_created : List (String × List JVal)
  blocked_users : List (String × JVal)
  performance_stats : List (String × JVal)
  commands_per_minute : JVal
  tasks_per_hour : JVal
  block_duration : JVal

/-- The fresh limiter, seen through the persistence layer's dynamic typing. -/
def defaultPState : PState :=
  { user_commands := []
    user_tasks_created := []
    blocked_users := []
    performance_stats :=
      [("total_requests", JVal.jnum 0), ("blocked_requests", JVal.jnum 0),
       ("cleanup_runs", JVal.jnum 0)]
    commands_per_minute := JVal.jnum 30
    tasks_per_hour := JVal.jnum 100
    block_duration := JVal.jnum 300 }

/-- A running `RateLimiter` state, seen through the persistence layer. -/
def toPState (s : RateLimiter) : PState :=
  { user_commands := s.user_commands.map (fun p => (p.1, p.2.map JVal.jnum))
    user_tasks_created := s.user_tasks_created.map (fun p => (p.1, p.2.map JVal.jnum))
    blocked_users := s.blocked_users.map (fun p => (p.1, JVal.jnum p.2))
    performance_stats :=
      [("total_requests", JVal.jnum s.performance_stats.total_requests),
       ("blocked_requests", JVal.jnum s.performance_stats.blocked_requests),
       ("cleanup_runs", JVal.jnum s.performance_stats.cleanup_runs)]
    commands_per_minute := JVal.jnum s.commands_per_minute
    tasks_per_hour := JVal.jnum s.tasks_per_hour
    block_duration := JVal.jnum s.block_duration }

/-- The JSON document `_save_state` writes (rate_limiter.py lines 314-325):
window deques as arrays, the block map, stats and config as objects. -/
def _save_state (s : PState) : JVal :=
  JVal.jobj
    [("user_commands", JVal.jobj (s.user_commands.map (fun p => (p.1, JVal.jarr p.2)))),
     ("user_tasks_created", JVal.jobj (s.user_tasks_created.map (fun p => (p.1, JVal.jarr p.2)))),
     ("blocked_users", JVal.jobj s.blocked_users),
     ("performance_stats", JVal.jobj s.performance_stats),
     ("config", JVal.jobj
       [("commands_per_minute", s.commands_per_minute),
        ("tasks_per_hour", s.tasks_per_hour),
        ("block_duration", s.block_duration)])]

/-- `.items()`: succeeds exactly on a JSON object. -/
def jitems (j : JVal) : Option (List (String × JVal)) :=
  match j with
  | JVal.jobj kvs => some kvs
  | _ => none

/-- Python iteration over a JSON value, as `deque(lst)` performs it: arrays
yield their elements, strings their characters, objects their keys; a number is
not iterable (`TypeError`). -/
def pyIter (j : JVal) : Option (List JVal) :=
  match j with
  | JVal.jarr xs => some xs
  | JVal.jstr s => some (s.data.map (fun ch => JVal.jstr (String.mk [ch])))
  | JVal.jobj kvs => some (kvs.map (fun p => JVal.jstr p.1))
  | JVal.jnum _ => none

/-- The `for uid, lst in ….items(): window[uid] = deque(lst)` loop (lines
339-342): entries are stored in iteration order; a non-iterable value raises
mid-loop, keeping the entries stored so far (second component `false`). -/
def loadQueues : List (String × JVal) → List (String × List JVal) × Bool
  | [] => ([], true)
  | (u, v) :: rest =>
    match pyIter v with
    | none => ([], false)
    | some q =>
      let (tail, ok) := loadQueues rest
      ((u, q) :: tail, ok)

/-- `dict.update(kvs)`: overwrite existing keys in place, append new ones. -/
def dictUpdate (m kvs : List (String × JVal)) : List (String × JVal) :=
  kvs.foldl (fun acc p => dset acc p.1 p.2) m

/-- `_load_state` (rate_limiter.py lines 330-351).  `file` is the snapshot
document, `none` when the file does not exist (the early return at line 334).
The body runs under `try/except Exception`: any structural failure
(`AttributeError` from `.get`/`.items` on a non-object, `TypeError` from
`deque` on a non-iterable) is caught and logged, and the function returns with
whatever the body had already mutated — the state loaded so far. -/
def _load_state (s : PState) (file : Option JVal) : PState :=
  match file with
  | none => s
  | some data =>
    let s1 := { s with user_commands := [], user_tasks_created := [] }
    match data with
    | JVal.jobj kvs =>
      match jitems (dgetD kvs "user_commands" (JVal.jobj [])) with
      | none => s1
      | some cmdItems =>
        match loadQueues cmdItems with
        | (cq, okc) =>
          let s2 := { s1 with user_commands := cq }
          match okc with
          | false => s2
          | true =>
            match jitems (dgetD kvs "user_tasks_created" (JVal.jobj [])) with
            | none => s2
            | some taskItems =>
              match loadQueues taskItems with
              | (tq, okt) =>
                let s3 := { s2 with user_tasks_created := tq }
                match okt with
                | false => s3
                | true =>
                  match jitems (dgetD kvs "blocked_users" (JVal.jobj [])) with
                  | none => s3
                  | some blk =>
                    let s4 := { s3 with blocked_users := blk }
                    match jitems (dgetD kvs "performance_stats" (JVal.jobj [])) with
                    | none => s4
                    | some statsItems =>
                      let stats5 := dictUpdate s4.performance_stats statsItems
                      let s5 := { s4 with performance_stats := stats5 }
                      match jitems (dgetD kvs "config" (JVal.jobj [])) with
                      | none => s5
                      | some cfg =>
                        { s5 with
                          commands_per_minute :=
                            (dget cfg "commands_per_minute").getD s5.commands_per_minute
                          tasks_per_hour :=
                            (dget cfg "tasks_per_hour").getD s5.tasks_per_hour
                          block_duration :=
                            (dget cfg "block_duration").getD s5.block_duration }
    | _ => s1

/-! ## Concrete states used by witnesses and counterexamples -/

/-- A user whose command window already holds the full 30 timestamps. -/
def fullCommandState : RateLimiter :=
  { RateLimiter.init with user_commands := [("u", List.replicate 30 0)] }

/-- A user blocked at time 0 (until 300) whose command window holds the single
timestamp 0. -/
def blockedCommandState : RateLimiter :=
  { RateLimiter.init with
    user_commands := [("u", [0])]
    blocked_users := [("u", 300)] }

/-- A user blocked at time 0 (until 300) whose task window still holds the 100
timestamps recorded just before the block. -/
def blockedTaskState : RateLimiter :=
  { RateLimiter.init with
    user_tasks_created := [("u", List.replicate 100 0)]
    blocked_users := [("u", 300)] }

/-- User `u` has an expired window entry but an active block; user `v` has a
fresh window entry. -/
def cleanupScenario : RateLimiter :=
  { RateLimiter.init with
    user_commands := [("u", [0]), ("v", [1000])]
    blocked_users := [("u", 2000)] }

/-- A single user tracked in both window maps. -/
def bothWindowsState : RateLimiter :=
  { RateLimiter.init with
    user_commands := [("u", [0])]
    user_tasks_created := [("u", [0])] }

/-- A user with an expired block entry (blocked until 10, long past at time 20)
and a command-window entry. -/
def expiredBlockState : RateLimiter :=
  { RateLimiter.init with
    user_commands := [("u", [5])]
    blocked_users := [("u", 10)] }

/-- A completed daily recurring task whose deadline has long passed. -/
def recSourceRow : TaskRow :=
  { task_id := 1
    task := "report"
    deadline := ⟨2024, 1, 1, 9, 0⟩
    priority := 0
    recurring := some "daily"
    owner_id := "u"
    status := Status.Completed }

/-- A task store holding only `recSourceRow`. -/
def recStore : TaskStore :=
  { tasks := [recSourceRow], task_assignments := [], next_task_id := 2 }

/-- The scheduler tick instant for `recStore`: well past the next deadline. -/
def recNow : DateTime := ⟨2024, 1, 10, 0, 0⟩

/-- A structurally malformed snapshot: a valid JSON document whose
`user_tasks_created` field is a number (not an object), so `.items()` raises
after the command windows have already been loaded. -/
def badSnapshot : JVal :=
  JVal.jobj
    [("user_commands", JVal.jobj [("u", JVal.jarr [JVal.jnum 5])]),
     ("user_tasks_created", JVal.jnum 0)]

/-! ## Helper lemmas: dicts and eviction -/

theorem dget_dset_self {α : Type} (m : List (String × α)) (k : String) (v : α) :
    dget (dset m k v) k = some v := by
  induction m with
  | nil => simp [dget, dset]
  | cons p rest ih =>
    obtain ⟨a, b⟩ := p
    by_cases hp : a = k
    · simp [dset, hp, dget]
    · simp [dset, hp, dget, ih]

theorem dget_dset_ne {α : Type} (m : List (String × α)) (k k' : String) (v : α)
    (h : k' ≠ k) : dget (dset m k v) k' = dget m k' := by
  have hk : ¬ k = k' := fun hh => h hh.symm
  induction m with
  | nil => simp [dget, dset, hk]
  | cons p rest ih =>
    obtain ⟨a, b⟩ := p
    by_cases hp : a = k
    · subst hp
      simp [dset, dget, hk]
    · simp [dset, hp, dget, ih]

theorem dget_ddel_self {α : Type} (m : List (String × α)) (k : String) :
    dget (ddel m k) k = none := by
  induction m with
  | nil => simp [dget, ddel]
  | cons p rest ih =>
    obtain ⟨a, b⟩ := p
    by_cases hp : a = k
    · simpa [ddel, hp] using ih
    · simpa [ddel, hp, dget] using ih

theorem dget_ddel_ne {α : Type} (m : List (String × α)) (k k' : String)
    (h : k' ≠ k) : dget (ddel m k) k' = dget m k' := by
  have hk : ¬ k = k' := fun hh => h hh.symm
  induction m with
  | nil => simp [dget, ddel]
  | cons p rest ih =>
    obtain ⟨a, b⟩ := p
    by_cases hp : a = k
    · subst hp
      simpa [ddel, dget, hk] using ih
    · simp only [ddel, ne_eq, decide_not] at ih ⊢
      simp [hp, dget, ih]

theorem evict_length_le (q : List Int) (c : Int) : (evict q c).length ≤ q.length := by
  induction q with
  | nil => simp [evict]
  | cons t rest ih =>
    by_cases h : t < c
    · simp only [evict, if_pos h]
      exact Nat.le_succ_of_le ih
    · simp [evict, h]

theorem evict_eq_nil (q : List Int) (c : Int) (h : ∀ x ∈ q, x < c) :
    evict q c = [] := by
  induction q with
  | nil => rfl
  | cons t rest ih =>
    have ht : t < c := h t (by simp)
    simp only [evict, if_pos ht]
    exact ih (fun x hx => h x (by simp [hx]))

/-! ## Branch equations for `is_rate_limited` -/

theorem windowStep_cmd_deny (s : RateLimiter) (u : String) (t : Int)
    (h : s.commands_per_minute ≤ (evict (dgetD s.user_commands u []) (t - 60)).length) :
    windowStep s u "command" t =
      (true, bumpBlocked
        { s with
          user_commands := dset s.user_commands u (evict (dgetD s.user_commands u []) (t - 60))
          blocked_users := dset s.blocked_users u (t + s.block_duration) }) := by
  simp [windowStep, h]

theorem windowStep_cmd_allow (s : RateLimiter) (u : String) (t : Int)
    (h : ¬ s.commands_per_minute ≤ (evict (dgetD s.user_commands u []) (t - 60)).length) :
    windowStep s u "command" t =
      (false, { s with
        user_commands := dset s.user_commands u
          (evict (dgetD s.user_commands u []) (t - 60) ++ [t]) }) := by
  simp [windowStep, h]

theorem windowStep_task_deny (s : RateLimiter) (u : String) (t : Int)
    (h : s.tasks_per_hour ≤ (evict (dgetD s.user_tasks_created u []) (t - 3600)).length) :
    windowStep s u "task" t =
      (true, bumpBlocked
        { s with
          user_tasks_created :=
            dset s.user_tasks_created u (evict (dgetD s.user_tasks_created u []) (t - 3600))
          blocked_users := dset s.blocked_users u (t + s.block_duration) }) := by
  simp [windowStep, h]

theorem windowStep_task_allow (s : RateLimiter) (u : String) (t : Int)
    (h : ¬ s.tasks_per_hour ≤ (evict (dgetD s.user_tasks_created u []) (t - 3600)).length) :
    windowStep s u "task" t =
      (false, { s with
        user_tasks_created := dset s.user_tasks_created u
          (evict (dgetD s.user_tasks_created u []) (t - 3600) ++ [t]) }) := by
  simp [windowStep, h]

theorem windowStep_other (s : RateLimiter) (u ct : String) (t : Int)
    (h1 : ct ≠ "command") (h2 : ct ≠ "task") :
    windowStep s u ct t = (false, s) := by
  simp [windowStep, h1, h2]

theorem is_rate_limited_not_blocked (s : RateLimiter) (u ct : String) (t : Int)
    (h : dget s.blocked_users u = none) :
    is_rate_limited s u ct t = windowStep (bumpTotal s) u ct t := by
  simp only [is_rate_limited, bumpTotal]
  rw [h]

theorem is_rate_limited_active_block (s : RateLimiter) (u ct : String) (t b : Int)
    (h : dget s.blocked_users u = some b) (hb : t < b) :
    is_rate_limited s u ct t = (true, bumpBlocked (bumpTotal s)) := by
  simp only [is_rate_limited, bumpTotal]
  rw [h]
  simp [hb]

theorem is_rate_limited_expired_block (s : RateLimiter) (u ct : String) (t b : Int)
    (h : dget s.blocked_users u = some b) (hb : ¬ t < b) :
    is_rate_limited s u ct t = windowStep (clearBlock (bumpTotal s) u) u ct t := by
  simp only [is_rate_limited, bumpTotal]
  rw [h]
  simp [hb, bumpTotal]

/-! ## The C1 invariant: window counts never exceed the limits -/

theorem dgetD_length_dset_le {m : List (String × List Int)} {lim : Nat}
    (hm : ∀ u', (dgetD m u' []).length ≤ lim) (u : String) (q : List Int)
    (hq : q.length ≤ lim) :
    ∀ u', (dgetD (dset m u q) u' []).length ≤ lim := by
  intro u'
  by_cases h : u' = u
  · subst h
    simpa [dgetD, dget_dset_self] using hq
  · simpa [dgetD, dget_dset_ne _ _ _ _ h] using hm u'

theorem windowStep_bounded (s : RateLimiter) (u ct : String) (t : Int)
    (h : Bounded s) : Bounded (windowStep s u ct t).2 := by
  obtain ⟨hc, hta⟩ := h
  by_cases h1 : ct = "command"
  · subst h1
    by_cases h2 : s.commands_per_minute ≤ (evict (dgetD s.user_commands u []) (t - 60)).length
    · rw [windowStep_cmd_deny s u t h2]
      exact ⟨dgetD_length_dset_le hc u _ (le_trans (evict_length_le _ _) (hc u)), hta⟩
    · rw [windowStep_cmd_allow s u t h2]
      refine ⟨dgetD_length_dset_le hc u _ ?_, hta⟩
      simp only [List.length_append, List.length_cons, List.length_nil]
      omega
  · by_cases h4 : ct = "task"
    · subst h4
      by_cases h2 : s.tasks_per_hour ≤ (evict (dgetD s.user_tasks_created u []) (t - 3600)).length
      · rw [windowStep_task_deny s u t h2]
        exact ⟨hc, dgetD_length_dset_le hta u _ (le_trans (evict_length_le _ _) (hta u))⟩
      · rw [windowStep_task_allow s u t h2]
        refine ⟨hc, dgetD_length_dset_le hta u _ ?_⟩
        simp only [List.length_append, List.length_cons, List.length_nil]
        omega
    · rw [windowStep_other s u ct t h1 h4]
      exact ⟨hc, hta⟩

theorem is_rate_limited_bounded (s : RateLimiter) (u ct : String) (t : Int)
    (h : Bounded s) : Bounded (is_rate_limited s u ct t).2 := by
  rcases hdg : dget s.blocked_users u with _ | b
  · rw [is_rate_limited_not_blocked s u ct t hdg]
    exact windowStep_bounded _ _ _ _ h
  · by_cases hb : t < b
    · rw [is_rate_limited_active_block s u ct t b hdg hb]
      exact h
    · rw [is_rate_limited_expired_block s u ct t b hdg hb]
      exact windowStep_bounded _ _ _ _ h

theorem windowStep_config (s : RateLimiter) (u ct : String) (t : Int) :
    (windowStep s u ct t).2.commands_per_minute = s.commands_per_minute ∧
    (windowStep s u ct t).2.tasks_per_hour = s.tasks_per_hour := by
  by_cases h1 : ct = "command"
  · subst h1
    by_cases h2 : s.commands_per_minute ≤ (evict (dgetD s.user_commands u []) (t - 60)).length
    · rw [windowStep_cmd_deny s u t h2]; exact ⟨rfl, rfl⟩
    · rw [windowStep_cmd_allow s u t h2]; exact ⟨rfl, rfl⟩
  · by_cases h4 : ct = "task"
    · subst h4
      by_cases h2 : s.tasks_per_hour ≤ (evict (dgetD s.user_tasks_created u []) (t - 3600)).length
      · rw [windowStep_task_deny s u t h2]; exact ⟨rfl, rfl⟩
      · rw [windowStep_task_allow s u t h2]; exact ⟨rfl, rfl⟩
    · rw [windowStep_other s u ct t h1 h4]; exact ⟨rfl, rfl⟩

theorem is_rate_limited_config (s : RateLimiter) (u ct : String) (t : Int) :
    (is_rate_limited s u ct t).2.commands_per_minute = s.commands_per_minute ∧
    (is_rate_limited s u ct t).2.tasks_per_hour = s.tasks_per_hour := by
  rcases hdg : dget s.blocked_users u with _ | b
  · rw [is_rate_limited_not_blocked s u ct t hdg]
    exact windowStep_config _ _ _ _
  · by_cases hb : t < b
    · rw [is_rate_limited_active_block s u ct t b hdg hb]
      exact ⟨rfl, rfl⟩
    · rw [is_rate_limited_expired_block s u ct t b hdg hb]
      exact windowStep_config _ _ _ _

theorem runTrace_bounded (calls : List Call) (s : RateLimiter) (h : Bounded s) :
    Bounded (runTrace s calls) := by
  induction calls generalizing s with
  | nil => exact h
  | cons c rest ih => exact ih _ (is_rate_limited_bounded _ _ _ _ h)

theorem runTrace_config (calls : List Call) (s : RateLimiter) :
    (runTrace s calls).commands_per_minute = s.commands_per_minute ∧
    (runTrace s calls).tasks_per_hour = s.tasks_per_hour := by
  induction calls generalizing s with
  | nil => exact ⟨rfl, rfl⟩
  | cons c rest ih =>
    have h1 := is_rate_limited_config s c.user_id c.command_type c.now
    have h2 := ih (is_rate_limited s c.user_id c.command_type c.now).2
    exact ⟨h2.1.trans h1.1, h2.2.trans h1.2⟩

/-! ## Claim theorems: rate limiter -/

/-- C1: for every user, every kind (command, limit `commands_per_minute` = 30
over a 60-second window; task, limit `tasks_per_hour` = 100 over a 3600-second
window), and every sequence of `is_rate_limited` calls from the initial state,
the number of timestamps retained in that user's window never exceeds the
configured limit; moreover a request arriving (with no block-map entry) when
the evicted window already holds `limit` entries is denied and its timestamp is
not appended: the stored window is exactly the evicted one. -/
theorem c1_window_count_bounded :
    (∀ calls u,
      (dgetD (runTrace RateLimiter.init calls).user_commands u []).length ≤ 30 ∧
      (dgetD (runTrace RateLimiter.init calls).user_tasks_created u []).length ≤ 100) ∧
    (∀ s u t, dget s.blocked_users u = none →
      s.commands_per_minute ≤ (evict (dgetD s.user_commands u []) (t - 60)).length →
      (is_rate_limited s u "command" t).1 = true ∧
      dget (is_rate_limited s u "command" t).2.user_commands u =
        some (evict (dgetD s.user_commands u []) (t - 60))) ∧
    (∀ s u t, dget s.blocked_users u = none →
      s.tasks_per_hour ≤ (evict (dgetD s.user_tasks_created u []) (t - 3600)).length →
      (is_rate_limited s u "task" t).1 = true ∧
      dget (is_rate_limited s u "task" t).2.user_tasks_created u =
        some (evict (dgetD s.user_tasks_created u []) (t - 3600))) := by
  refine ⟨fun calls u => ?_, fun s u t hb hlim => ?_, fun s u t hb hlim => ?_⟩
  · have h0 : Bounded RateLimiter.init :=
      ⟨fun u' => by simp [RateLimiter.init, dgetD, dget],
       fun u' => by simp [RateLimiter.init, dgetD, dget]⟩
    have hB := runTrace_bounded calls RateLimiter.init h0
    have hC := runTrace_config calls RateLimiter.init
    obtain ⟨hB1, hB2⟩ := hB
    constructor
    · have := hB1 u
      rw [hC.1] at this
      exact this
    · have := hB2 u
      rw [hC.2] at this
      exact this
  · rw [is_rate_limited_not_blocked s u "command" t hb,
      windowStep_cmd_deny (bumpTotal s) u t hlim]
    exact ⟨rfl, dget_dset_self _ _ _⟩
  · rw [is_rate_limited_not_blocked s u "task" t hb,
      windowStep_task_deny (bumpTotal s) u t hlim]
    exact ⟨rfl, dget_dset_self _ _ _⟩

/-- Witness for C1: the denial clause applied to a user whose command window
already holds 30 timestamps. -/
theorem c1_witness :
    dget fullCommandState.blocked_users "u" = none ∧
    fullCommandState.commands_per_minute ≤
      (evict (dgetD fullCommandState.user_commands "u" []) (1 - 60)).length ∧
    ((is_rate_limited fullCommandState "u" "command" 1).1 = true ∧
      dget (is_rate_limited fullCommandState "u" "command" 1).2.user_commands "u" =
        some (evict (dgetD fullCommandState.user_commands "u" []) (1 - 60))) :=
  ⟨by decide, by decide,
    c1_window_count_bounded.2.1 fullCommandState "u" 1 (by decide) (by decide)⟩

/-- C3 as stated is false for the `task` kind: `blockedTaskState` blocks user
`u` at time 0 until 300, yet the request of the same kind at `blockedUntil + 1`
is denied again (the 3600-second window still holds all 100 timestamps) and the
user is re-blocked until 601 instead of the entry being cleared. -/
theorem c3_counterexample :
    dget blockedTaskState.blocked_users "u" = some (0 + 300) ∧
    (is_rate_limited blockedTaskState "u" "task" (0 + 301)).1 = true ∧
    dget (is_rate_limited blockedTaskState "u" "task" (0 + 301)).2.blocked_users "u" =
      some 601 := by
  refine ⟨by decide, by decide, by decide⟩

/-- C3 amended: for the `command` kind the claim holds.  If user `u` is blocked
until `t + 300`, every timestamp in their command window is at most `t`, and
the command limit is positive (it is 30 by default), then the request at
`blockedUntil + 1 = t + 301` is allowed and the user's block-map entry is
cleared by that call.  (The 60-second command window has fully expired after
the 300-second block; the `task` kind does not satisfy this, see the
counterexample.) -/
theorem c3_amended (s : RateLimiter) (u : String) (t : Int)
    (hblock : dget s.blocked_users u = some (t + 300))
    (hq : ∀ x ∈ dgetD s.user_commands u [], x ≤ t)
    (hlim : 0 < s.commands_per_minute) :
    (is_rate_limited s u "command" (t + 301)).1 = false ∧
    dget (is_rate_limited s u "command" (t + 301)).2.blocked_users u = none := by
  have hnb : ¬ t + 301 < t + 300 := by omega
  rw [is_rate_limited_expired_block s u "command" (t + 301) (t + 300) hblock hnb]
  have hnil : evict (dgetD s.user_commands u []) (t + 301 - 60) = [] :=
    evict_eq_nil _ _ (fun x hx => by have := hq x hx; omega)
  have hlt : ¬ (clearBlock (bumpTotal s) u).commands_per_minute ≤
      (evict (dgetD (clearBlock (bumpTotal s) u).user_commands u [])
        (t + 301 - 60)).length := by
    show ¬ s.commands_per_minute ≤ (evict (dgetD s.user_commands u []) (t + 301 - 60)).length
    rw [hnil]
    simp only [List.length_nil]
    omega
  rw [windowStep_cmd_allow (clearBlock (bumpTotal s) u) u (t + 301) hlt]
  refine ⟨rfl, ?_⟩
  show dget (ddel s.blocked_users u) u = none
  exact dget_ddel_self _ _

/-- Witness for C3 (amended): a user blocked at time 0 with a single command
timestamp 0 is allowed again at time 301 and their block entry is gone. -/
theorem c3_witness :
    (is_rate_limited blockedCommandState "u" "command" (0 + 301)).1 = false ∧
    dget (is_rate_limited blockedCommandState "u" "command" (0 + 301)).2.blocked_users "u" =
      none :=
  c3_amended blockedCommandState "u" 0 (by decide) (by decide) (by decide)

/-- C9 as stated is false: user `u` of `expiredBlockState` has no active block
at time 20 (their entry expired at 10), yet `is_rate_limited` with the unknown
`command_type` `"ping"` deletes that expired entry (rate_limiter.py line 57),
so the block map changes and the `total_requests` increment is not the only
state change. -/
theorem c9_counterexample :
    dget expiredBlockState.blocked_users "u" = some 10 ∧
    ¬ activeBlock expiredBlockState "u" 20 ∧
    (is_rate_limited expiredBlockState "u" "ping" 20).1 = false ∧
    (is_rate_limited expiredBlockState "u" "ping" 20).2.blocked_users = [] ∧
    (is_rate_limited expiredBlockState "u" "ping" 20).2 ≠ bumpTotal expiredBlockState := by
  refine ⟨by decide, ?_, by decide, by decide, by decide⟩
  rintro ⟨b, hb, hlt⟩
  rw [show dget expiredBlockState.blocked_users "u" = some 10 from rfl] at hb
  injection hb with hb10
  omega

/-- C9 amended: for a user with no active block, `is_rate_limited` with a
`command_type` other than `"command"` and `"task"` returns `false` (allowed)
and leaves both window queues unchanged; the state changes are exactly
`total_requests` increasing by one plus, when the user has an expired
block-map entry, the deletion of that entry: with no block-map entry the
successor state is exactly `bumpTotal s`, and with an (expired) entry it is
exactly `clearBlock (bumpTotal s) u`. -/
theorem c9_amended (s : RateLimiter) (u ct : String) (t : Int)
    (h1 : ct ≠ "command") (h2 : ct ≠ "task") (hna : ¬ activeBlock s u t) :
    (dget s.blocked_users u = none → is_rate_limited s u ct t = (false, bumpTotal s)) ∧
    (∀ b, dget s.blocked_users u = some b →
      is_rate_limited s u ct t = (false, clearBlock (bumpTotal s) u)) := by
  constructor
  · intro hn
    rw [is_rate_limited_not_blocked s u ct t hn]
    exact windowStep_other _ _ _ _ h1 h2
  · intro b hb
    have hexp : ¬ t < b := fun hlt => hna ⟨b, hb, hlt⟩
    rw [is_rate_limited_expired_block s u ct t b hb hexp]
    exact windowStep_other _ _ _ _ h1 h2

/-- Witness for C9 (amended): the unknown command type `"ping"` against the
user with the expired block entry — the call returns allowed and the successor
state is the original with `total_requests` bumped and the stale entry
removed. -/
theorem c9_witness :
    is_rate_limited expiredBlockState "u" "ping" 20 =
      (false, clearBlock (bumpTotal expiredBlockState) "u") := by
  have hna : ¬ activeBlock expiredBlockState "u" 20 := by
    rintro ⟨b, hb, hlt⟩
    rw [show dget expiredBlockState.blocked_users "u" = some 10 from rfl] at hb
    injection hb with hb10
    omega
  exact (c9_amended expiredBlockState "u" "ping" 20 (by decide) (by decide) hna).2 10
    (by decide)

/-- C10: `get_stats` reports `active_users` as the size of the command-window
map plus the size of the task-window map, so the single user of
`bothWindowsState`, present in both windows, contributes 2 to `active_users`
while the number of distinct tracked users is 1. -/
theorem c10_active_users_double_counts :
    (∀ s, (get_stats s).active_users =
      s.user_commands.length + s.user_tasks_created.length) ∧
    (get_stats bothWindowsState).active_users = 2 ∧
    distinctTrackedUsers bothWindowsState = 1 :=
  ⟨fun s => rfl, by decide, by decide⟩

/-! ## C6: cleanup removes exactly the inactive users -/

theorem dget_eq_none_of_not_mem {α : Type} (m : List (String × α)) (u : String)
    (h : u ∉ m.map Prod.fst) : dget m u = none := by
  induction m with
  | nil => rfl
  | cons p rest ih =>
    obtain ⟨a, b⟩ := p
    simp only [List.map_cons, List.mem_cons, not_or] at h
    rw [show dget ((a, b) :: rest) u = if a = u then some b else dget rest u from rfl,
      if_neg (fun hh => h.1 hh.symm), ih h.2]

theorem mem_keys_cleanupWindows (m : List (String × List Int)) (c : Int) (u : String)
    (h : u ∈ (cleanupWindows m c).map Prod.fst) : u ∈ m.map Prod.fst := by
  induction m with
  | nil => simp [cleanupWindows] at h
  | cons p rest ih =>
    obtain ⟨a, q⟩ := p
    by_cases hq : evict q c = []
    · simp only [cleanupWindows, if_pos hq] at h
      simp [ih h]
    · simp only [cleanupWindows, if_neg hq, List.map_cons, List.mem_cons] at h
      rcases h with h | h
      · simp [h]
      · simp [ih h]

theorem mem_keys_cleanupBlocks (m : List (String × Int)) (t : Int) (u : String)
    (h : u ∈ (cleanupBlocks m t).map Prod.fst) : u ∈ m.map Prod.fst := by
  simp only [cleanupBlocks, List.mem_map] at h ⊢
  obtain ⟨x, hx, hxu⟩ := h
  exact ⟨x, List.mem_of_mem_filter hx, hxu⟩

theorem dget_cleanupWindows (m : List (String × List Int)) (c : Int) (u : String)
    (h : keysNodup m) :
    dget (cleanupWindows m c) u =
      (dget m u).bind (fun q => if evict q c = [] then none else some (evict q c)) := by
  induction m with
  | nil => rfl
  | cons p rest ih =>
    obtain ⟨a, q⟩ := p
    simp only [keysNodup, List.map_cons, List.nodup_cons] at h
    obtain ⟨ha, hrest⟩ := h
    by_cases hau : a = u
    · subst hau
      by_cases hq : evict q c = []
      · simp only [cleanupWindows, if_pos hq]
        have hnone : dget (cleanupWindows rest c) a = none :=
          dget_eq_none_of_not_mem _ _ (fun hm => ha (mem_keys_cleanupWindows _ _ _ hm))
        rw [hnone]
        simp [dget, hq]
      · simp only [cleanupWindows, if_neg hq]
        simp [dget, hq]
    · by_cases hq : evict q c = []
      · simp only [cleanupWindows, if_pos hq]
        rw [ih hrest]
        simp [dget, hau]
      · simp only [cleanupWindows, if_neg hq]
        simp [dget, hau, ih hrest]

theorem dget_cleanupBlocks (m : List (String × Int)) (t : Int) (u : String)
    (h : keysNodup m) :
    dget (cleanupBlocks m t) u =
      (dget m u).bind (fun b => if t < b then some b else none) := by
  induction m with
  | nil => rfl
  | cons p rest ih =>
    obtain ⟨a, b⟩ := p
    simp only [keysNodup, List.map_cons, List.nodup_cons] at h
    obtain ⟨ha, hrest⟩ := h
    by_cases hau : a = u
    · subst hau
      by_cases hb : t < b
      · simp only [cleanupBlocks, List.filter_cons, decide_eq_true_eq, if_pos hb]
        simp [dget, hb]
      · simp only [cleanupBlocks, List.filter_cons, decide_eq_true_eq, if_neg hb]
        have hnone : dget (cleanupBlocks rest t) a = none :=
          dget_eq_none_of_not_mem _ _ (fun hm => ha (mem_keys_cleanupBlocks _ _ _ hm))
        rw [show List.filter (fun p => decide (t < p.2)) rest = cleanupBlocks rest t from rfl,
          hnone]
        simp [dget, hb]
    · by_cases hb : t < b
      · simp only [cleanupBlocks, List.filter_cons, decide_eq_true_eq, if_pos hb]
        rw [show List.filter (fun p => decide (t < p.2)) rest = cleanupBlocks rest t from rfl]
        simp [dget, hau, ih hrest]
      · simp only [cleanupBlocks, List.filter_cons, decide_eq_true_eq, if_neg hb]
        rw [show List.filter (fun p => decide (t < p.2)) rest = cleanupBlocks rest t from rfl,
          ih hrest]
        simp [dget, hau]

/-- C6: a cleanup pass removes a user's tracked entries entirely exactly when
both of their windows are empty after eviction and they have no active block; a
user with an active block, or with a window entry that survives eviction,
remains tracked. -/
theorem c6_cleanup_removal_iff (s : RateLimiter) (t : Int) (u : String)
    (h1 : keysNodup s.user_commands) (h2 : keysNodup s.user_tasks_created)
    (h3 : keysNodup s.blocked_users) :
    tracked (cleanup_old_entries s t) u ↔
      evict (dgetD s.user_commands u []) (t - 60) ≠ [] ∨
      evict (dgetD s.user_tasks_created u []) (t - 3600) ≠ [] ∨
      activeBlock s u t := by
  have e1 : (cleanup_old_entries s t).user_commands = cleanupWindows s.user_commands (t - 60) :=
    rfl
  have e2 : (cleanup_old_entries s t).user_tasks_created =
      cleanupWindows s.user_tasks_created (t - 3600) := rfl
  have e3 : (cleanup_old_entries s t).blocked_users = cleanupBlocks s.blocked_users t := rfl
  unfold tracked activeBlock
  rw [e1, e2, e3, dget_cleanupWindows _ _ _ h1, dget_cleanupWindows _ _ _ h2,
    dget_cleanupBlocks _ _ _ h3]
  rcases hc : dget s.user_commands u with _ | qc <;>
    rcases ht : dget s.user_tasks_created u with _ | qt <;>
    rcases hb : dget s.blocked_users u with _ | b <;>
    simp [dgetD, hc, ht, hb, evict]

/-- Witness for C6: in `cleanupScenario` at time 100, user `u` (expired window
entry, active block) remains tracked by the right-hand side being true. -/
theorem c6_witness :
    tracked (cleanup_old_entries cleanupScenario 100) "u" ↔
      evict (dgetD cleanupScenario.user_commands "u" []) (100 - 60) ≠ [] ∨
      evict (dgetD cleanupScenario.user_tasks_created "u" []) (100 - 3600) ≠ [] ∨
      activeBlock cleanupScenario "u" 100 :=
  c6_cleanup_removal_iff cleanupScenario 100 "u" (by unfold keysNodup; decide)
    (by unfold keysNodup; decide) (by unfold keysNodup; decide)

/-! ## Calendar arithmetic: `addDays` advances the linear timeline -/

theorem daysInMonth_pos (y m : Nat) : 1 ≤ daysInMonth y m := by
  unfold daysInMonth
  split
  · split <;> omega
  · split <;> omega

theorem daysBeforeMonth_succ (y m : Nat) (h : 1 ≤ m) :
    daysBeforeMonth y (m + 1) = daysBeforeMonth y m + daysInMonth y m := by
  obtain ⟨k, rfl⟩ : ∃ k, m = k + 1 := ⟨m - 1, by omega⟩
  rfl

theorem leapCount_succ (y : Nat) :
    leapCount (y + 1) = leapCount y + (if isLeapYear y = true then 1 else 0) := by
  unfold leapCount isLeapYear
  by_cases h4 : y % 4 = 0 <;> by_cases h100 : y % 100 = 0 <;> by_cases h400 : y % 400 = 0 <;>
    simp [h4, h100, h400] <;> omega

theorem daysBeforeYear_succ (y : Nat) :
    daysBeforeYear (y + 1) = daysBeforeYear y + 365 + (if isLeapYear y = true then 1 else 0) := by
  unfold daysBeforeYear
  rw [leapCount_succ]
  ring

theorem daysBeforeMonth_twelve (y : Nat) :
    daysBeforeMonth y 12 = 306 + daysInMonth y 2 := by
  have e2 : daysBeforeMonth y 2 = 0 + daysInMonth y 1 := rfl
  have e3 : daysBeforeMonth y 3 = daysBeforeMonth y 2 + daysInMonth y 2 := rfl
  have e4 : daysBeforeMonth y 4 = daysBeforeMonth y 3 + daysInMonth y 3 := rfl
  have e5 : daysBeforeMonth y 5 = daysBeforeMonth y 4 + daysInMonth y 4 := rfl
  have e6 : daysBeforeMonth y 6 = daysBeforeMonth y 5 + daysInMonth y 5 := rfl
  have e7 : daysBeforeMonth y 7 = daysBeforeMonth y 6 + daysInMonth y 6 := rfl
  have e8 : daysBeforeMonth y 8 = daysBeforeMonth y 7 + daysInMonth y 7 := rfl
  have e9 : daysBeforeMonth y 9 = daysBeforeMonth y 8 + daysInMonth y 8 := rfl
  have e10 : daysBeforeMonth y 10 = daysBeforeMonth y 9 + daysInMonth y 9 := rfl
  have e11 : daysBeforeMonth y 11 = daysBeforeMonth y 10 + daysInMonth y 10 := rfl
  have e12 : daysBeforeMonth y 12 = daysBeforeMonth y 11 + daysInMonth y 11 := rfl
  have d1 : daysInMonth y 1 = 31 := rfl
  have d3 : daysInMonth y 3 = 31 := rfl
  have d4 : daysInMonth y 4 = 30 := rfl
  have d5 : daysInMonth y 5 = 31 := rfl
  have d6 : daysInMonth y 6 = 30 := rfl
  have d7 : daysInMonth y 7 = 31 := rfl
  have d8 : daysInMonth y 8 = 31 := rfl
  have d9 : daysInMonth y 9 = 30 := rfl
  have d10 : daysInMonth y 10 = 31 := rfl
  have d11 : daysInMonth y 11 = 30 := rfl
  omega

theorem nextDay_valid_and_succ (d : DateTime) (h : ValidDate d) :
    ValidDate (nextDay d) ∧ toDayNumber (nextDay d) = toDayNumber d + 1 := by
  obtain ⟨h1, h2, h3, h4⟩ := h
  unfold nextDay
  by_cases hd : d.day < daysInMonth d.year d.month
  · rw [if_pos hd]
    constructor
    · refine ⟨h1, h2, ?_, ?_⟩
      · show 1 ≤ d.day + 1
        omega
      · show d.day + 1 ≤ daysInMonth d.year d.month
        omega
    · show daysBeforeYear d.year + daysBeforeMonth d.year d.month + (d.day + 1 - 1) =
        daysBeforeYear d.year + daysBeforeMonth d.year d.month + (d.day - 1) + 1
      omega
  · rw [if_neg hd]
    have hdm : d.day = daysInMonth d.year d.month := by omega
    by_cases hm : d.month < 12
    · rw [if_pos hm]
      constructor
      · refine ⟨?_, ?_, ?_, ?_⟩
        · show 1 ≤ d.month + 1
          omega
        · show d.month + 1 ≤ 12
          omega
        · show 1 ≤ 1
          omega
        · show 1 ≤ daysInMonth d.year (d.month + 1)
          exact daysInMonth_pos _ _
      · show daysBeforeYear d.year + daysBeforeMonth d.year (d.month + 1) + (1 - 1) =
          daysBeforeYear d.year + daysBeforeMonth d.year d.month + (d.day - 1) + 1
        rw [daysBeforeMonth_succ d.year d.month h1]
        have := daysInMonth_pos d.year d.month
        omega
    · rw [if_neg hm]
      have hm12 : d.month = 12 := by omega
      have hd31 : d.day = 31 := by
        rw [hm12] at hdm
        have : daysInMonth d.year 12 = 31 := rfl
        omega
      constructor
      · refine ⟨?_, ?_, ?_, ?_⟩
        · show 1 ≤ 1
          omega
        · show 1 ≤ 12
          omega
        · show 1 ≤ 1
          omega
        · show 1 ≤ daysInMonth (d.year + 1) 1
          have : daysInMonth (d.year + 1) 1 = 31 := rfl
          omega
      · show daysBeforeYear (d.year + 1) + daysBeforeMonth (d.year + 1) 1 + (1 - 1) =
          daysBeforeYear d.year + daysBeforeMonth d.year d.month + (d.day - 1) + 1
        have hbm1 : daysBeforeMonth (d.year + 1) 1 = 0 := rfl
        have h12 := daysBeforeMonth_twelve d.year
        have hYs := daysBeforeYear_succ d.year
        have hfeb : daysInMonth d.year 2 = if isLeapYear d.year = true then 29 else 28 := rfl
        rw [hm12, hd31]
        by_cases hleap : isLeapYear d.year = true
        · simp [hleap] at hYs hfeb
          omega
        · simp [hleap] at hYs hfeb
          omega

theorem toMin_nextDay (d : DateTime) (h : ValidDate d) :
    toMin (nextDay d) = toMin d + 1440 ∧ ValidDate (nextDay d) := by
  obtain ⟨hv, hs⟩ := nextDay_valid_and_succ d h
  refine ⟨?_, hv⟩
  have hh : (nextDay d).hour = d.hour := by
    unfold nextDay
    split_ifs <;> rfl
  have hmn : (nextDay d).minute = d.minute := by
    unfold nextDay
    split_ifs <;> rfl
  unfold toMin
  rw [hs, hh, hmn]
  ring

theorem toMin_addDays (d : DateTime) (n : Nat) (h : ValidDate d) :
    toMin (addDays d n) = toMin d + n * 1440 ∧ ValidDate (addDays d n) := by
  induction n generalizing d with
  | zero => exact ⟨by simp [addDays], h⟩
  | succ k ih =>
    have hnd := toMin_nextDay d h
    have hk := ih (nextDay d) hnd.2
    constructor
    · show toMin (addDays (nextDay d) k) = toMin d + (k + 1) * 1440
      rw [hk.1, hnd.1]
      ring
    · exact hk.2

/-! ## Claim theorems: recurrence calculator and scheduler -/

/-- C7: on any valid instant, `calculate_next_deadline` with rule `daily`
advances the instant by exactly 24 hours and with `weekly` by exactly 7×24
hours (measured on the linear timeline `toMin`, in minutes); any rule whose
lowercasing is none of `daily`/`weekly`/`monthly` yields no next occurrence. -/
theorem c7_daily_weekly_unknown (d : DateTime) (rule : String) (hv : ValidDate d) :
    (calculate_next_deadline d "daily").map toMin = some (toMin d + 24 * 60) ∧
    (calculate_next_deadline d "weekly").map toMin = some (toMin d + 7 * (24 * 60)) ∧
    (pyLower rule ≠ "daily" → pyLower rule ≠ "weekly" → pyLower rule ≠ "monthly" →
      calculate_next_deadline d rule = none) := by
  refine ⟨?_, ?_, fun hd hw hm => ?_⟩
  · have h1 : calculate_next_deadline d "daily" = some (addDays d 1) := rfl
    rw [h1]
    show some (toMin (addDays d 1)) = some (toMin d + 24 * 60)
    rw [(toMin_addDays d 1 hv).1]
  · have h1 : calculate_next_deadline d "weekly" = some (addDays d 7) := rfl
    rw [h1]
    show some (toMin (addDays d 7)) = some (toMin d + 7 * (24 * 60))
    rw [(toMin_addDays d 7 hv).1]
  · unfold calculate_next_deadline
    rw [if_neg hd, if_neg hw, if_neg hm]

/-- Witness for C7 at 2024-06-15T10:00 with unknown rule `"yearly"`. -/
theorem c7_witness :
    (calculate_next_deadline ⟨2024, 6, 15, 10, 0⟩ "daily").map toMin =
      some (toMin ⟨2024, 6, 15, 10, 0⟩ + 24 * 60) ∧
    (calculate_next_deadline ⟨2024, 6, 15, 10, 0⟩ "weekly").map toMin =
      some (toMin ⟨2024, 6, 15, 10, 0⟩ + 7 * (24 * 60)) ∧
    calculate_next_deadline ⟨2024, 6, 15, 10, 0⟩ "yearly" = none := by
  have h := c7_daily_weekly_unknown ⟨2024, 6, 15, 10, 0⟩ "yearly"
    (by unfold ValidDate; decide)
  exact ⟨h.1, h.2.1, h.2.2 (by decide) (by decide) (by decide)⟩

set_option maxRecDepth 8000 in
/-- C4 as stated is false: on the local instant 2024-01-31T09:00 with rule
`monthly`, the code's 30-day fallback lands on 2024-03-01T09:00 (2024 is a
leap year, so January 31 plus 30 days is March 1), not on 2024-03-02T09:00. -/
theorem c4_counterexample :
    calculate_next_deadline ⟨2024, 1, 31, 9, 0⟩ "monthly" ≠
      some ⟨2024, 3, 2, 9, 0⟩ := by decide

set_option maxRecDepth 8000 in
/-- C4 amended: `calculate_next_deadline(2024-01-31T09:00, "monthly")` takes
the 30-day fallback (February 31 does not exist) and returns 2024-03-01T09:00. -/
theorem c4_amended :
    calculate_next_deadline ⟨2024, 1, 31, 9, 0⟩ "monthly" =
      some ⟨2024, 3, 1, 9, 0⟩ := by decide

set_option maxRecDepth 8000 in
/-- C2 fails on the code, which the spec itself flags as a latent source bug:
`recurring_task_loop` never consumes a source task's eligibility — the source
row stays `Completed` with its rule set — so two immediately consecutive ticks
over `recStore` (one completed daily task, deadline long past, unchanged
between runs) insert one new `Pending` copy each: after the first tick there is
1 regenerated copy, after the second there are 2, violating "at most one new
task per eligible source task". -/
theorem c2_scheduler_duplicates :
    ((recurring_task_loop recStore recNow).tasks.filter
      (fun r => r.status == Status.Pending && r.task == "report")).length = 1 ∧
    ((recurring_task_loop (recurring_task_loop recStore recNow) recNow).tasks.filter
      (fun r => r.status == Status.Pending && r.task == "report")).length = 2 := by
  constructor
  · decide
  · decide

/-! ## Claim theorems: state persistence -/

theorem loadQueues_jarr (l : List (String × List JVal)) :
    loadQueues (l.map (fun p => (p.1, JVal.jarr p.2))) = (l, true) := by
  induction l with
  | nil => rfl
  | cons p rest ih =>
    obtain ⟨u, q⟩ := p
    simp only [List.map_cons, loadQueues, pyIter, ih]

/-- C5: saving any limiter state with `_save_state` and loading the snapshot
with `_load_state` into a fresh limiter reproduces the state exactly: the same
per-user window contents in the same order, the same block map, the same
performance stats and the same config values.  (`toPState` is the injection of
a running `RateLimiter` state into the dynamically-typed view the persistence
code manipulates.) -/
theorem c5_roundtrip (s : RateLimiter) :
    _load_state defaultPState (some (_save_state (toPState s))) = toPState s := by
  simp only [_save_state, _load_state, toPState, defaultPState, dgetD, dget, jitems,
    loadQueues_jarr, dictUpdate, dset, List.foldl, Option.getD, reduceIte, String.reduceEq]

/-- C8 as stated is false: on the malformed snapshot `badSnapshot` (a valid
JSON document whose `user_tasks_created` field is not an object), `_load_state`
into a fresh limiter does not leave the empty/default state — it aborts after
having already installed the snapshot's command windows. -/
theorem c8_counterexample :
    _load_state defaultPState (some badSnapshot) ≠ defaultPState := by
  intro h
  have h2 : ([("u", [JVal.jnum 5])] : List (String × List JVal)) = [] :=
    congrArg PState.user_commands h
  exact List.cons_ne_nil _ _ h2

/-- C8 amended: `_load_state` is modelled as a total function — the
`try/except Exception` around its body catches every structural failure, so no
exception reaches the caller.  When no snapshot file exists it returns with the
state untouched (the empty/default state at startup), and when the snapshot is
malformed the failure is logged and the limiter continues; however, instead of
an empty/default state it may be left with partially-loaded snapshot contents:
on `badSnapshot` the command windows already hold the snapshot's entries while
the remaining fields keep their defaults. -/
theorem c8_amended :
    (∀ s, _load_state s none = s) ∧
    (_load_state defaultPState (some badSnapshot)).user_commands =
      [("u", [JVal.jnum 5])] ∧
    (_load_state defaultPState (some badSnapshot)).user_tasks_created = [] ∧
    (_load_state defaultPState (some badSnapshot)).blocked_users =
      defaultPState.blocked_users ∧
    (_load_state defaultPState (some badSnapshot)).performance_stats =
      defaultPState.performance_stats :=
  ⟨fun _ => rfl, rfl, rfl, rfl, rfl⟩
